import Mathlib

/-!
Verification development for the TinyMCE typer engine
(src/scripts/tinymce_typer.py).  The stateful Selenium/clipboard code is
shallowly embedded: each browser or clipboard interaction is represented
either by its effect on an explicit state value or by an oracle parameter
describing what the external world returned, and every function of the
source that a claim touches is translated into an executable Lean
definition over these representations.
-/

/-! ## Characters and small string helpers -/

/-- The ASCII apostrophe character (escaped by the character typing loop). -/
def squote : Char := Char.ofNat 39

/-- The characters of the HTML line-break tag produced for a newline
(source lines 429, 548, 569, 631, 653: the replacement of a newline). -/
def brChars : List Char := '<' :: 'b' :: 'r' :: '>' :: []

/-- The characters of the non-breaking-space entity produced for repeated
spaces (source lines 429, 548, 572, 631, 655). -/
def nbspChars : List Char := '&' :: 'n' :: 'b' :: 's' :: 'p' :: ';' :: []

/-! ## Formatting helpers of the delivery strategies -/

/-- Python replace of every newline by the break tag, as in
content.replace applied with the newline pattern (first replace of
source lines 429, 510, 548, 631). -/
def replaceNl : List Char → List Char
  | [] => []
  | c :: rest => (if c = '\n' then brChars else [c]) ++ replaceNl rest

/-- Python replace of every two-space run by two non-breaking-space
entities, left to right and without overlap (second replace of source
lines 429, 510, 548, 631). -/
def replaceDoubleSpace : List Char → List Char
  | ' ' :: ' ' :: rest => nbspChars ++ (nbspChars ++ replaceDoubleSpace rest)
  | c :: rest => c :: replaceDoubleSpace rest
  | [] => []

/-- The formatted form of a content string: newlines to break tags, then
double spaces to non-breaking spaces (source lines 429, 510, 548, 631). -/
def fmtReplace (s : List Char) : List Char := replaceDoubleSpace (replaceNl s)

/-- Escaping applied to one character by the character typing loop
(source line 575: apostrophe and double quote get a leading backslash). -/
def escChar (c : Char) : List Char :=
  if c = squote then '\\' :: squote :: []
  else if c = '"' then '\\' :: '"' :: []
  else [c]

/-- The per-character HTML accumulation of type_content (source lines
563 to 576): a newline becomes a break tag, a space preceded in the
original text by a space becomes a non-breaking space, and any other
character is escaped.  The first argument is the previous original
character, mirroring the slice content[i-1:i] of line 570. -/
def fmtCharGo (prev : Option Char) : List Char → List Char
  | [] => []
  | c :: rest =>
    (if c = '\n' then brChars
     else if c = ' ' ∧ prev = some ' ' then nbspChars
     else escChar c) ++ fmtCharGo (some c) rest

/-- The batch formatting loop of type_content_batched (source lines 650
to 657): a newline becomes a break tag, and a space becomes a
non-breaking space when the formatted batch built so far ends with a
literal space.  The first argument is the last character appended so far
(none for the empty batch); after a break tag it is the closing angle
bracket and after an entity it is the semicolon, exactly as the endswith
test of line 654 sees them. -/
def fmtBatchGo (last : Option Char) : List Char → List Char
  | [] => []
  | c :: rest =>
    if c = '\n' then brChars ++ fmtBatchGo (some '>') rest
    else if c = ' ' ∧ last = some ' ' then nbspChars ++ fmtBatchGo (some ';') rest
    else c :: fmtBatchGo (some c) rest

/-- Formatting of one batch starting from the empty formatted string
(source line 650). -/
def fmtBatchOf (batch : List Char) : List Char := fmtBatchGo none batch

/-- Splitting a list into consecutive chunks of a given size, with a
fuel argument for structural recursion. -/
def chunksGo (bs : ℕ) : ℕ → List Char → List (List Char)
  | 0, _ => []
  | _, [] => []
  | fuel + 1, l => l.take bs :: chunksGo bs fuel (l.drop bs)

/-- The batches visited by the range loop of source line 644: consecutive
chunks of the remaining content of the configured batch size. -/
def chunksOf (bs : ℕ) (l : List Char) : List (List Char) :=
  if bs = 0 then [] else chunksGo bs l.length l

/-! ## Final editor content of the typing strategies

type_content (source lines 519 to 602): when the checkpoint offset is
zero the editor is cleared and the loop builds current_html from the
empty string over the whole content.  When the offset is positive the
committed prefix is written once in formatted form (lines 541 to 549),
content is replaced by the remaining suffix (line 551), and the loop then
rebuilds current_html from the EMPTY string (line 561) and assigns it to
the editor on every character (line 579) — so the last assignment of the
run, hence the final editor content, is the formatted suffix alone
whenever the suffix is non-empty. -/

/-- Final editor innerHTML produced by a completed run of type_content
on the given content with the given checkpoint offset. -/
def type_content_final (content : List Char) (startPos : ℕ) : List Char :=
  if startPos = 0 then fmtCharGo none content
  else
    if content.drop startPos = [] then fmtReplace (content.take startPos)
    else fmtCharGo none (content.drop startPos)

/-- Final editor innerHTML produced by a completed run of
type_content_batched (source lines 604 to 684): the committed prefix is
written once in formatted form (lines 627 to 632), current_html is then
initialised from the editor content just written (line 642), and every
batch appends its formatted form (lines 660 to 663) — so the prefix is
preserved. -/
def type_content_batched_final (content : List Char) (startPos bs : ℕ) : List Char :=
  let prefixHtml := if startPos = 0 then [] else fmtReplace (content.take startPos)
  let remaining := if startPos = 0 then content else content.drop startPos
  prefixHtml ++ ((chunksOf bs remaining).map fmtBatchOf).flatten

/-! ## Checkpoint saves of the typing strategies -/

/-- The committed-character counts passed to save_session during a
completed run of type_content with buffer length n and checkpoint offset
k: inside the loop the count start_pos + i is saved whenever it is a
multiple of one hundred (source lines 582 to 584), and the final count
start_pos + total_chars is saved once at the end (lines 594 to 595). -/
def type_content_saves (n k : ℕ) : List ℕ :=
  (((List.range (n - k)).map (fun i => k + i)).filter (fun v => v % 100 == 0))
    ++ [k + (n - k)]

/-- The committed-character counts passed to save_session during a
completed run of type_content_batched with buffer length n, checkpoint
offset k and batch size bs: after the batch starting at index i the
count start_pos + min (i + bs) total is recorded (source line 666) and
saved when it is a multiple of five batch sizes (lines 667 to 668), and
the final count is saved once at the end (lines 676 to 677). -/
def type_content_batched_saves (n k bs : ℕ) : List ℕ :=
  (((List.range ((n - k + bs - 1) / bs)).map
      (fun j => k + min (j * bs + bs) (n - k))).filter
    (fun v => v % (bs * 5) == 0))
    ++ [k + (n - k)]

/-! ## Python whitespace normalization (verify_typed_content lines 701 to 702) -/

/-- Whitespace characters recognised by the Python str.split method with
no arguments, restricted to ASCII. -/
def pyIsSpace (c : Char) : Bool :=
  c = ' ' || c = '\t' || c = '\n' || c = '\x0d' || c = '\x0b' || c = '\x0c'

/-- Python str.split with no arguments: maximal runs of non-whitespace,
with empty pieces dropped.  The accumulator holds the current word
reversed. -/
def pySplitGo : List Char → List Char → List (List Char)
  | [], acc => if acc = [] then [] else [acc.reverse]
  | c :: rest, acc =>
    if pyIsSpace c then
      (if acc = [] then pySplitGo rest [] else acc.reverse :: pySplitGo rest [])
    else pySplitGo rest (c :: acc)

/-- Joining words with single spaces, as the Python join of line 701. -/
def joinWords : List (List Char) → List Char
  | [] => []
  | [w] => w
  | w :: ws => w ++ ' ' :: joinWords ws

/-- The normalization applied by verify_typed_content to both the
expected and the actual content (source lines 701 to 702): split on
whitespace runs and rejoin with single spaces, which also trims. -/
def pyNorm (s : List Char) : List Char := joinWords (pySplitGo s [])

/-- Containment of one character list as a contiguous segment of
another, the Python membership test of line 705 on strings. -/
def containsSeg (needle : List Char) : List Char → Bool
  | [] => needle.isEmpty
  | c :: rest => needle.isPrefixOf (c :: rest) || containsSeg needle rest

/-! ## The difflib SequenceMatcher similarity

verify_typed_content (source lines 713 to 715) computes
difflib.SequenceMatcher(None, expected_clean, actual_clean).ratio().
The Python standard library defines this ratio as 2 M / T where T is the
sum of the lengths and M is the total size of the matching blocks; the
matching blocks are found by recursively taking the longest matching
block of a region (ties resolved by the smallest upper index pair in
lexicographic order, exactly the first strict improvement found by the
nested loops of find_longest_match) and recursing on the regions to its
left and right.  With no junk predicate and both strings shorter than
two hundred characters (the autojunk cutoff) the heuristic phases of
find_longest_match do nothing, so the model below is exact. -/

/-- Whether position i of the first list and position j of the second
hold the same character. -/
def matchAt (a b : List Char) (i j : ℕ) : Bool :=
  match a.get? i, b.get? j with
  | some x, some y => x = y
  | _, _ => false

/-- Length of the longest common suffix of the two lists ending at
positions i and j and staying inside the lower bounds alo and blo: the
value the j2len dictionary of find_longest_match holds at (i, j). -/
def commonSuffixLen (a b : List Char) (alo blo : ℕ) : ℕ → ℕ → ℕ
  | 0, j => if alo = 0 ∧ blo ≤ j ∧ matchAt a b 0 j = true then 1 else 0
  | i + 1, j =>
    if alo ≤ i + 1 ∧ blo ≤ j ∧ matchAt a b (i + 1) j = true then
      (if j = 0 then 1 else commonSuffixLen a b alo blo i (j - 1) + 1)
    else 0

/-- Maximum of a function over the index interval from lo of the given
length, computed by binary splitting (so that kernel reduction stays
shallow); zero on the empty interval.  The first argument is fuel for
structural recursion, any value at least the length works. -/
def maxOverGo (f : ℕ → ℕ) : ℕ → ℕ → ℕ → ℕ
  | 0, _, _ => 0
  | _ + 1, _, 0 => 0
  | _ + 1, lo, 1 => f lo
  | fuel + 1, lo, len + 2 =>
    max (maxOverGo f fuel lo ((len + 2) / 2))
      (maxOverGo f fuel (lo + (len + 2) / 2) (len + 2 - (len + 2) / 2))

/-- First index in the interval from lo of the given length satisfying
the predicate, computed by binary splitting; the first argument is fuel
for structural recursion. -/
def firstHitGo (p : ℕ → Bool) : ℕ → ℕ → ℕ → Option ℕ
  | 0, _, _ => none
  | _ + 1, _, 0 => none
  | _ + 1, lo, 1 => if p lo then some lo else none
  | fuel + 1, lo, len + 2 =>
    match firstHitGo p fuel lo ((len + 2) / 2) with
    | some r => some r
    | none => firstHitGo p fuel (lo + (len + 2) / 2) ((len + 2) - (len + 2) / 2)

/-- find_longest_match of difflib on the region a[alo:ahi], b[blo:bhi]
with no junk, returned as (start in a, start in b, size).  The nested
loops of the source scan end positions i then j in increasing order and
keep the first strict improvement, so the block returned is the one of
maximal size whose end-position pair (i, j) is lexicographically first —
equivalently, per the difflib docstring, of all maximal blocks the one
starting earliest in a and then earliest in b.  The pairs are scanned
here through a single flattened index in the same lexicographic order. -/
def findLongestMatch (a b : List Char) (alo ahi blo bhi : ℕ) : ℕ × ℕ × ℕ :=
  let w := bhi - blo
  let cnt := (ahi - alo) * w
  let lenAt := fun idx =>
    commonSuffixLen a b alo blo (alo + idx / w) (blo + idx % w)
  let k := maxOverGo lenAt cnt 0 cnt
  if k = 0 then (alo, blo, 0)
  else
    match firstHitGo (fun idx => lenAt idx == k) cnt 0 cnt with
    | some idx => (alo + idx / w + 1 - k, blo + idx % w + 1 - k, k)
    | none => (alo, blo, 0)

/-- Total size of the matching blocks of a region, by the recursion of
get_matching_blocks, with a fuel argument for structural recursion (each
recursive call strictly shrinks the region, so any fuel at least the
region size is enough). -/
def matchedTotalGo (a b : List Char) : ℕ → ℕ × ℕ × ℕ × ℕ → ℕ
  | 0, _ => 0
  | fuel + 1, (alo, ahi, blo, bhi) =>
    let m := findLongestMatch a b alo ahi blo bhi
    if m.2.2 = 0 then 0
    else
      m.2.2 + matchedTotalGo a b fuel (alo, m.1, blo, m.2.1)
        + matchedTotalGo a b fuel (m.1 + m.2.2, ahi, m.2.1 + m.2.2, bhi)

/-- Total matched size M of the two lists under SequenceMatcher. -/
def matchedTotal (a b : List Char) : ℕ :=
  matchedTotalGo a b (a.length + b.length + 1) (0, a.length, 0, b.length)

/-- The SequenceMatcher ratio 2 M / T as an exact rational (the source
compares the derived percentage against ninety far from the threshold,
so modelling the float arithmetic exactly by rationals is faithful). -/
def ratioQ (a b : List Char) : ℚ :=
  2 * (matchedTotal a b : ℚ) / ((a.length : ℚ) + (b.length : ℚ))

/-- The similarity percentage printed and compared by source lines 714
to 718, as an exact rational over the normalized strings. -/
def simPct (e a : List Char) : ℚ := 100 * ratioQ (pyNorm e) (pyNorm a)

/-- The threshold test of source line 718 (ratio times one hundred below
ninety) cleared of the division: two hundred times the matched total
below ninety times the total length.  For strings of positive total
length this is exactly the comparison the source makes, and the
similarity branch of verify_typed_content is only reached when the
normalized expected string is non-empty (an empty one is contained in
everything), so the total length there is always positive. -/
def simLt90 (x y : List Char) : Bool :=
  decide (200 * matchedTotal x y < 90 * (x.length + y.length))

/-! ## The verifier (verify_typed_content, source lines 686 to 725) -/

/-- The lowercase letter against which the retry answer is compared. -/
def yChar : Char := 'y'

/-- verify_typed_content as a function of the expected content, the
actual editor innerHTML, the no-verification flag and the interactive
answer to the retry prompt: containment of the normalized expected
content in the normalized actual content returns true (lines 701 to
707); otherwise, when the similarity is below ninety percent and
verification is enabled, the result is true exactly when the lowercased
answer differs from the letter y (lines 718 to 720); otherwise false
(line 722). -/
def verify_typed_content (e a : List Char) (noVerif : Bool) (resp : List Char) : Bool :=
  if containsSeg (pyNorm e) (pyNorm a) = true then true
  else if simLt90 (pyNorm e) (pyNorm a) = true ∧ noVerif = false then
    (if resp.map Char.toLower = [yChar] then false else true)
  else false

/-- Whether a run of verify_typed_content reaches the interactive retry
prompt of source line 719: containment failed, the similarity is below
ninety percent, and verification is enabled. -/
def retry_prompt_shown (e a : List Char) (noVerif : Bool) : Bool :=
  if containsSeg (pyNorm e) (pyNorm a) = true then false
  else if simLt90 (pyNorm e) (pyNorm a) = true ∧ noVerif = false then true
  else false

/-- The integer threshold test agrees with the rational comparison the
source makes whenever the total length is positive, which holds on every
run that reaches the similarity branch. -/
theorem simLt90_iff_ratio (x y : List Char) (h : 0 < x.length + y.length) :
    simLt90 x y = true ↔ 100 * ratioQ x y < 90 := by
  have hT : (0 : ℚ) < (x.length : ℚ) + (y.length : ℚ) := by exact_mod_cast h
  have hrw : 100 * ratioQ x y
      = (200 * (matchedTotal x y : ℚ)) / ((x.length : ℚ) + (y.length : ℚ)) := by
    rw [ratioQ]; ring
  rw [simLt90, decide_eq_true_eq, hrw, div_lt_iff₀ hT]
  constructor
  · intro hlt
    exact_mod_cast hlt
  · intro hlt
    exact_mod_cast hlt

/-! ## The clipboard paste attempt (try_clipboard_paste, source lines 412 to 485)

The editor is external state; the three innerHTML reads the function
performs after its three insertion attempts (lines 437, 450, 463) are
oracle fields of PasteProbe.  The system clipboard is modelled
explicitly: it starts at the saved pre-attempt value (line 426), method
two copies the formatted content onto it (line 445), method three copies
the plain content (line 458), and only the all-methods-failed path and
the exception path copy the original value back (lines 475, 482). -/

/-- The editor innerHTML observed after each of the three insertion
attempts of try_clipboard_paste. -/
structure PasteProbe where
  afterDirect : List Char
  afterCtrlV : List Char
  afterPlain : List Char

/-- The outcome of a clipboard paste attempt: the returned flag, the
final system clipboard content, and the final editor innerHTML. -/
structure PasteOutcome where
  success : Bool
  clipboard : List Char
  editorHtml : List Char
deriving DecidableEq

/-- The insertion check of source lines 438, 451 and 464: the observed
innerHTML is truthy and longer than ten characters (a length above ten
already implies truthiness). -/
def insertedCheck (s : List Char) : Bool := decide (10 < s.length)

/-- try_clipboard_paste on a given pre-attempt clipboard value, content
buffer and editor oracle.  Method one never touches the clipboard;
method two leaves the formatted content on it on success, method three
leaves the plain content on it on success (and reformats the observed
editor content, lines 467 to 468); only the failure path restores the
original value (line 475). -/
def try_clipboard_paste (origClipboard content : List Char) (probe : PasteProbe) :
    PasteOutcome :=
  let formatted := fmtReplace content
  if insertedCheck probe.afterDirect = true then
    ⟨true, origClipboard, probe.afterDirect⟩
  else if insertedCheck probe.afterCtrlV = true then
    ⟨true, formatted, probe.afterCtrlV⟩
  else if insertedCheck probe.afterPlain = true then
    ⟨true, content, fmtReplace probe.afterPlain⟩
  else
    ⟨false, origClipboard, []⟩

/-! ## Session checkpoints (save_session and load_session, lines 820 to 907) -/

/-- The structured checkpoint record of save_session (lines 823 to 828). -/
structure SessionData where
  url : String
  file : String
  progress : ℕ
  timestamp : String
deriving DecidableEq

/-- The possible states of the checkpoint file as load_session sees
them: missing; parseable as the plain record; an encrypted blob of a
record under some passphrase (not parseable as plain JSON, decryptable
exactly with that passphrase); or bytes that are neither parseable nor
decryptable under any passphrase. -/
inductive StoredSession where
  | absent
  | plain (d : SessionData)
  | encrypted (d : SessionData) (passphrase : String)
  | garbage
deriving DecidableEq

/-- What load_session reports: a normal return, the decryption-failure
message of line 880 (also reached for undecryptable bytes, since
decrypt_data returns its input unchanged on any failure, lines 816 to
818, after which the parse of line 877 fails), or the
no-decryption-support message of lines 883 to 884. -/
inductive LoadReport where
  | ok
  | decryptFailed
  | decryptUnsupported
deriving DecidableEq

/-- The adoption step of load_session (lines 892 to 904): the stored
progress is taken only when both the stored url and the stored file
equal the current ones; it is then reset to zero by the reset flag or by
any resume answer whose lowercase form is not the letter y. -/
def adoptCheckpoint (d : SessionData) (url file : String) (reset : Bool)
    (resp : String) : ℕ :=
  if d.url = url ∧ d.file = file then
    (if reset = true then 0
     else if resp.toLower = String.mk [yChar] then d.progress else 0)
  else 0

/-- load_session as a function of the stored file state, the
availability of the cryptography package, the supplied passphrase, the
current url and file, the reset flag and the interactive resume answer;
it returns the progress the run continues with (initially zero, line 41)
and the report produced.  Every failure path of the source leaves the
progress at zero and returns normally (the outer handler of lines 905
to 907 even resets it to zero), so the function is total. -/
def load_session (stored : StoredSession) (encAvail : Bool)
    (password url file : String) (reset : Bool) (resp : String) : ℕ × LoadReport :=
  match stored with
  | .absent => (0, .ok)
  | .plain d => (adoptCheckpoint d url file reset resp, .ok)
  | .encrypted d pw =>
    if encAvail = true then
      (if password = pw then (adoptCheckpoint d url file reset resp, .ok)
       else (0, .decryptFailed))
    else (0, .decryptUnsupported)
  | .garbage =>
    if encAvail = true then (0, .decryptFailed) else (0, .decryptUnsupported)

/-! ## Editor searches (find_and_focus_editor lines 235 to 323,
find_editor lines 325 to 410)

The searches are modelled by the sequence of frame and element
operations they issue against the automation handle, with oracle
structures describing which lookups succeed. -/

/-- One browser-automation operation issued during an editor search. -/
inductive DriverOp where
  | switchDefault
  | waitFrameById (id : String)
  | switchFrameById (id : String)
  | waitClickableById (id : String)
  | findCss (sel : String)
  | findAllCss (sel : String)
  | switchFrameMatched (sel : String)
  | focusScript
deriving DecidableEq

/-- The body selector resolved inside a matched frame (lines 289, 357). -/
def selBody : String := "body"

/-- The TinyMCE candidate selectors of lines 277 to 282 and 343 to 348. -/
def selToxIframe : String := "div.tox-edit-area__iframe"

/-- The common TinyMCE iframe selector. -/
def selTinyIfr : String := "iframe#tinymce_ifr"

/-- The any-iframe-ending-in-ifr selector. -/
def selAnyIfr : String := "iframe[id$=\x27_ifr\x27]"

/-- The older TinyMCE edit-area selector. -/
def selMceArea : String := "div.mce-edit-area iframe"

/-- The generic editable-content selector of lines 300 and 394. -/
def selContentEditable : String := "[contenteditable=\x27true\x27]"

/-- The CKEditor frame selector of line 370. -/
def selCke : String := "iframe.cke_wysiwyg_frame"

/-- The Quill editor selector of line 386. -/
def selQl : String := ".ql-editor"

/-- The ordered TinyMCE selector list probed by both searches. -/
def tinymceSelectors : List String :=
  [selToxIframe, selTinyIfr, selAnyIfr, selMceArea]

/-- Which lookups succeed during a run of find_and_focus_editor: whether
the explicit iframe appears within its timeout, whether the explicit
editor element becomes clickable, and whether a CSS probe (frame switch
plus inner body resolution, collapsed into one outcome) succeeds. -/
structure LocEnv where
  frameById : String → Bool
  clickableById : String → Bool
  selectorHit : String → Bool

/-- The method-two loop of find_and_focus_editor (lines 285 to 293):
each selector is probed in turn; on a hit the frame is entered and the
inner body resolved, ending the loop, and on a miss the next selector is
tried. -/
def method2Trace (env : LocEnv) : List String → List DriverOp
  | [] => []
  | sel :: rest =>
    if env.selectorHit sel = true then
      [DriverOp.findCss sel, DriverOp.switchFrameMatched sel, DriverOp.findCss selBody]
    else DriverOp.findCss sel :: method2Trace env rest

/-- Whether the method-two loop finds an editor. -/
def method2Hit (env : LocEnv) : List String → Bool
  | [] => false
  | sel :: rest => env.selectorHit sel || method2Hit env rest

/-- The operation sequence issued by find_and_focus_editor given the
optional explicit iframe and editor identifiers (empty string meaning
not supplied, matching the argparse defaults of lines 1123 to 1126) and
the lookup oracle.  The search never switches back to the default
content: method zero switches into the explicit iframe from whatever
frame context is current, and the later probes run in that context. -/
def find_and_focus_editor_trace (iframeId editorId : String) (env : LocEnv) :
    List DriverOp :=
  (if iframeId = "" then []
   else if env.frameById iframeId = true then
     [DriverOp.waitFrameById iframeId, DriverOp.switchFrameById iframeId]
   else [DriverOp.waitFrameById iframeId]) ++
  (if editorId = "" then [] else [DriverOp.waitClickableById editorId]) ++
  (let f1 := if editorId = "" then false else env.clickableById editorId
   (if f1 = true then [] else method2Trace env tinymceSelectors) ++
   (let f2 := f1 || method2Hit env tinymceSelectors
    (if f2 = true then [] else [DriverOp.findCss selContentEditable]) ++
    (let f3 := f2 || env.selectorHit selContentEditable
     if f3 = true then [DriverOp.focusScript] else [])))

/-- Which frames and elements exist during a run of find_editor: the
frame identifiers returned by each find-elements probe, and whether the
inner body of a frame resolves. -/
structure MultiEnv where
  matchedFrames : String → List String
  bodyOk : String → Bool

/-- The per-frame probe of find_editor (lines 353 to 361 and 371 to
379): switch into the frame, resolve the inner body, and switch back to
the default content on both the success and the failure path. -/
def frameProbe (fid : String) : List DriverOp :=
  [DriverOp.switchFrameById fid, DriverOp.findCss selBody, DriverOp.switchDefault]

/-- The operation sequence issued by find_editor: it switches to the
default content first (line 336), probes the TinyMCE selectors and the
CKEditor selector frame by frame, enumerates Quill and generic
contenteditable candidates, and returns to the default content at the
end (lines 404 to 406). -/
def find_editor_trace (env : MultiEnv) : List DriverOp :=
  DriverOp.switchDefault ::
    ((tinymceSelectors.map (fun sel =>
        DriverOp.findAllCss sel :: ((env.matchedFrames sel).map frameProbe).flatten)).flatten
      ++ (DriverOp.findAllCss selCke ::
          ((env.matchedFrames selCke).map frameProbe).flatten)
      ++ [DriverOp.findAllCss selQl]
      ++ [DriverOp.findAllCss selContentEditable]
      ++ [DriverOp.switchDefault])

/-! ## Concrete inputs used by witnesses and counterexamples -/

/-- The expected content of the similarity scenario. -/
def strA : String := "The quick brown fox"

/-- The close actual content of the similarity scenario. -/
def strB1 : String := "The quick brown fo"

/-- The unrelated actual content of the similarity scenario. -/
def strB2 : String := "completely different text"

/-- The expected content of the containment scenario. -/
def strE3 : String := "Hello   World\n\nFoo"

/-- The actual editor markup of the containment scenario. -/
def strA3 : String := "<p>Hello World</p><p>Foo</p>"

/-- The normalized form of the containment-scenario expected content. -/
def strNormE3 : String := "Hello World Foo"

/-- A two-character content buffer. -/
def abContent : String := "ab"

/-- A pre-attempt clipboard value. -/
def origClip : String := "orig"

/-- A content payload longer than ten characters with no newline and no
double space, so its formatted form is itself. -/
def contentC2 : String := "Hello world content!"

/-- Eleven characters of junk unrelated to any payload. -/
def junk11 : String := "xxxxxxxxxxx"

/-- A small expected content for the retry scenario. -/
def strE10 : String := "abc"

/-- An unrelated actual content for the retry scenario. -/
def strA10 : String := "zzzz zzzz zzzz"

/-- The uppercase retry answer. -/
def respY : String := "Y"

/-- A declining retry answer. -/
def respNo : String := "no"

/-- A stored checkpoint record for the session scenarios. -/
def sdStored : SessionData :=
  ⟨String.mk ('u' :: '1' :: []), String.mk ('f' :: '1' :: []), 137,
    String.mk ('t' :: 's' :: [])⟩

/-- A different target url. -/
def urlOther : String := String.mk ('u' :: '2' :: [])

/-- A passphrase. -/
def pwGood : String := String.mk ('p' :: '1' :: [])

/-- A different passphrase. -/
def pwBad : String := String.mk ('p' :: '2' :: [])

/-- A lookup oracle under which nothing is found. -/
def envNoHit : LocEnv := ⟨fun _ => false, fun _ => false, fun _ => false⟩

/-- An explicit iframe identifier. -/
def iframeArg : String := String.mk ('f' :: 'r' :: '1' :: [])

/-- The empty identifier (argument not supplied). -/
def emptyId : String := ""

/-! ## Helper lemmas -/

/-- The empty needle is a segment of every haystack, so a failed
containment test forces the needle to be non-empty. -/
theorem containsSeg_nil (hay : List Char) : containsSeg [] hay = true := by
  induction hay with
  | nil => rfl
  | cons c rest ih => simp [containsSeg, List.isPrefixOf]

/-- Sortedness of a monotone image of an initial segment of the
naturals. -/
theorem sorted_le_range_map (t : ℕ) (f : ℕ → ℕ)
    (hf : ∀ a b, a ≤ b → f a ≤ f b) :
    List.Sorted (fun a b => a ≤ b) ((List.range t).map f) := by
  have hp := List.pairwise_lt_range t
  exact List.Pairwise.map f (fun a b hab => hf a b (Nat.le_of_lt hab)) hp

/-- Filtering a sorted bounded list and appending its bound keeps it
sorted. -/
theorem sorted_le_filter_append (l : List ℕ) (q : ℕ → Bool) (top : ℕ)
    (hs : List.Sorted (fun a b => a ≤ b) l) (hb : ∀ x ∈ l, x ≤ top) :
    List.Sorted (fun a b => a ≤ b) (l.filter q ++ [top]) := by
  refine List.pairwise_append.mpr ⟨List.Pairwise.filter q hs, by simp, ?_⟩
  intro a ha b hb2
  rw [List.mem_singleton] at hb2
  subst hb2
  exact hb a (List.mem_of_mem_filter ha)

/-- Every element of such a filtered-and-capped list is at most the
bound. -/
theorem mem_filter_append_le (l : List ℕ) (q : ℕ → Bool) (top : ℕ)
    (hb : ∀ x ∈ l, x ≤ top) : ∀ x ∈ l.filter q ++ [top], x ≤ top := by
  intro x hx
  rcases List.mem_append.mp hx with hx | hx
  · exact hb x (List.mem_of_mem_filter hx)
  · rw [List.mem_singleton] at hx
    subst hx
    exact le_rfl

/-! ## Claim theorems -/

/-- C1.  The resumability claim fails on the code: resuming type_content
on the buffer ab at checkpoint offset one leaves only the formatted
suffix b as the final editor content, because the character loop rebuilds
current_html from the empty string (source line 561) and its innerHTML
assignment (line 579) overwrites the prefix written at line 549; a
from-scratch run produces ab, and the two differ after whitespace
normalization.  The batched strategy at the same input preserves the
prefix (it initialises current_html from the editor content, line 642),
showing the intended behaviour. -/
theorem type_content_resume_drops_prefix :
    type_content_final abContent.data 1 = ('b' :: [])
    ∧ type_content_final abContent.data 0 = abContent.data
    ∧ pyNorm (type_content_final abContent.data 1)
        ≠ pyNorm (type_content_final abContent.data 0)
    ∧ type_content_batched_final abContent.data 1 50 = abContent.data := by
  decide

/-- C2.  The clipboard-restoration claim fails on the code: when the
direct insertion check fails and the formatted Ctrl+V paste succeeds,
try_clipboard_paste returns success with the formatted content still on
the system clipboard (copied at source line 445 and never restored on
the success exits at lines 453 and 469); the pre-attempt value is only
restored on the all-methods-failed path (line 475) and the exception
path (line 482). -/
theorem clipboard_not_restored_on_paste_success :
    (try_clipboard_paste origClip.data contentC2.data
        ⟨[], contentC2.data, []⟩).success = true
    ∧ (try_clipboard_paste origClip.data contentC2.data
        ⟨[], contentC2.data, []⟩).clipboard ≠ origClip.data := by
  decide

/-- C3 counterexample.  The containment scenario of the claim fails on
the code: the normalization of verify_typed_content keeps the markup of
the actual innerHTML, so the normalized expected string is not contained
in the normalized actual string, and verify_typed_content returns false
both with verification prompts disabled and when the retry is accepted. -/
theorem verifier_containment_example_fails :
    containsSeg (pyNorm strE3.data) (pyNorm strA3.data) = false
    ∧ verify_typed_content strE3.data strA3.data true [] = false
    ∧ verify_typed_content strE3.data strA3.data false (yChar :: []) = false := by
  decide

/-- C3 amended.  Verification of the expected content against the actual
markup does not succeed: the normalized expected string is exactly
Hello World Foo, it is not contained in the normalized actual string
(the tags between words survive whitespace normalization), and
verify_typed_content therefore does not return true through containment:
with the retry prompt disabled it returns false for every answer. -/
theorem verifier_containment_example_amended (resp : List Char) :
    pyNorm strE3.data = strNormE3.data
    ∧ containsSeg (pyNorm strE3.data) (pyNorm strA3.data) = false
    ∧ verify_typed_content strE3.data strA3.data true resp = false := by
  refine ⟨by decide, by decide, ?_⟩
  have hc : ¬ (containsSeg (pyNorm strE3.data) (pyNorm strA3.data) = true) := by
    decide
  have hs : ¬ (simLt90 (pyNorm strE3.data) (pyNorm strA3.data) = true
      ∧ (true : Bool) = false) := by
    rintro ⟨-, h⟩
    exact absurd h (by decide)
  unfold verify_typed_content
  rw [if_neg hc, if_neg hs]

/-- C4 counterexample.  The clipboard strategy reports success although
the delivered content is absent from the surface: with eleven junk
characters as the observed innerHTML after direct insertion, the length
check passes and try_clipboard_paste returns true, while the normalized
payload does not occur in the surface content. -/
theorem clipboard_success_without_content :
    (try_clipboard_paste [] contentC2.data ⟨junk11.data, [], []⟩).success = true
    ∧ containsSeg (pyNorm contentC2.data) (pyNorm junk11.data) = false
    ∧ (try_clipboard_paste [] contentC2.data
        ⟨junk11.data, [], []⟩).editorHtml = junk11.data := by
  decide

/-- C4 amended.  The clipboard strategy reports success exactly when one
of the three post-insertion innerHTML reads is longer than ten
characters (the basic check of source lines 438, 451 and 464), with no
test that the delivered content or any marker of it appears. -/
theorem clipboard_success_iff_length_check (orig content : List Char)
    (probe : PasteProbe) :
    (try_clipboard_paste orig content probe).success
      = (insertedCheck probe.afterDirect || insertedCheck probe.afterCtrlV
          || insertedCheck probe.afterPlain) := by
  unfold try_clipboard_paste
  split_ifs with h1 h2 h3 <;> simp_all

/-- C5.  During a completed run of either typing strategy from a
checkpoint offset within the buffer, the committed-character counts
recorded by the checkpoint saves are monotonically non-decreasing and
never exceed the buffer length. -/
theorem checkpoint_saves_monotone_bounded (n k bs : ℕ) (hk : k ≤ n)
    (hbs : 1 ≤ bs) :
    (List.Sorted (fun a b => a ≤ b) (type_content_saves n k)
      ∧ ∀ x ∈ type_content_saves n k, x ≤ n)
    ∧ (List.Sorted (fun a b => a ≤ b) (type_content_batched_saves n k bs)
      ∧ ∀ x ∈ type_content_batched_saves n k bs, x ≤ n) := by
  have htop : k + (n - k) = n := by omega
  have hb1 : ∀ x ∈ (List.range (n - k)).map (fun i => k + i), x ≤ k + (n - k) := by
    intro x hx
    rw [List.mem_map] at hx
    obtain ⟨i, hi, rfl⟩ := hx
    rw [List.mem_range] at hi
    omega
  have hs1 : List.Sorted (fun a b => a ≤ b)
      ((List.range (n - k)).map (fun i => k + i)) :=
    sorted_le_range_map (n - k) (fun i => k + i)
      (by intro a b h; exact Nat.add_le_add_left h k)
  have hb2 : ∀ x ∈ (List.range ((n - k + bs - 1) / bs)).map
      (fun j => k + min (j * bs + bs) (n - k)), x ≤ k + (n - k) := by
    intro x hx
    rw [List.mem_map] at hx
    obtain ⟨j, hj, rfl⟩ := hx
    exact Nat.add_le_add_left (min_le_right _ _) k
  have hs2 : List.Sorted (fun a b => a ≤ b)
      ((List.range ((n - k + bs - 1) / bs)).map
        (fun j => k + min (j * bs + bs) (n - k))) := by
    refine sorted_le_range_map _ _ ?_
    intro a b hab
    have hmul : a * bs ≤ b * bs := Nat.mul_le_mul_right bs hab
    exact Nat.add_le_add_left
      (min_le_min (Nat.add_le_add_right hmul bs) le_rfl) k
  refine ⟨⟨?_, ?_⟩, ?_, ?_⟩
  · exact sorted_le_filter_append _ _ _ hs1 hb1
  · intro x hx
    have := mem_filter_append_le _ _ _ hb1 x hx
    omega
  · exact sorted_le_filter_append _ _ _ hs2 hb2
  · intro x hx
    have := mem_filter_append_le _ _ _ hb2 x hx
    omega

/-- C5 witness: a run of two hundred and five characters resumed at
offset three with batch size fifty. -/
theorem checkpoint_saves_monotone_bounded_witness :
    (3 ≤ 205 ∧ 1 ≤ 50)
    ∧ ((List.Sorted (fun a b => a ≤ b) (type_content_saves 205 3)
        ∧ ∀ x ∈ type_content_saves 205 3, x ≤ 205)
      ∧ (List.Sorted (fun a b => a ≤ b) (type_content_batched_saves 205 3 50)
        ∧ ∀ x ∈ type_content_batched_saves 205 3 50, x ≤ 205)) :=
  ⟨⟨by decide, by decide⟩,
    checkpoint_saves_monotone_bounded 205 3 50 (by decide) (by decide)⟩

/-- C6.  A stored checkpoint whose url or file differs from the current
ones is never adopted: load_session returns progress zero for it, both
when the record is stored plain and when it is stored encrypted, for
every availability flag, passphrase, reset flag and resume answer. -/
theorem stale_session_not_adopted (d : SessionData) (encAvail reset : Bool)
    (password pw url file resp : String)
    (h : d.url ≠ url ∨ d.file ≠ file) :
    (load_session (StoredSession.plain d) encAvail password url file reset resp).1 = 0
    ∧ (load_session (StoredSession.encrypted d pw) encAvail password url file
        reset resp).1 = 0 := by
  have hmatch : ¬ (d.url = url ∧ d.file = file) := by tauto
  constructor
  · simp only [load_session]
    show adoptCheckpoint d url file reset resp = 0
    unfold adoptCheckpoint
    rw [if_neg hmatch]
  · simp only [load_session]
    split_ifs with he hp
    · show adoptCheckpoint d url file reset resp = 0
      unfold adoptCheckpoint
      rw [if_neg hmatch]
    · rfl
    · rfl

/-- C6 witness: a checkpoint stored for one url, loaded by a run aimed
at a different url with the same file. -/
theorem stale_session_not_adopted_witness :
    (sdStored.url ≠ urlOther ∨ sdStored.file ≠ sdStored.file)
    ∧ ((load_session (StoredSession.plain sdStored) true pwGood urlOther
          sdStored.file false respY).1 = 0
      ∧ (load_session (StoredSession.encrypted sdStored pwGood) true pwGood
          urlOther sdStored.file false respY).1 = 0) :=
  ⟨Or.inl (by decide),
    stale_session_not_adopted sdStored true false pwGood pwGood urlOther
      sdStored.file respY (Or.inl (by decide))⟩

/-- C7.  A checkpoint file that is neither parseable as the plain record
nor decryptable with the supplied passphrase — garbage bytes, or an
encrypted record attacked with the wrong passphrase — makes load_session
report the decryption failure and keep progress at zero; the embedding
is a total function, matching the source where every such path returns
normally (lines 879 to 885) under the outer handler of lines 905 to 907. -/
theorem corrupt_checkpoint_treated_as_absent (d : SessionData)
    (password pw url file resp : String) (reset : Bool)
    (hpw : password ≠ pw) :
    load_session StoredSession.garbage true password url file reset resp
      = (0, LoadReport.decryptFailed)
    ∧ load_session (StoredSession.encrypted d pw) true password url file
        reset resp = (0, LoadReport.decryptFailed) := by
  constructor
  · rfl
  · simp only [load_session]
    rw [if_pos trivial, if_neg hpw]

/-- C7 witness: garbage bytes and a wrong passphrase on an encrypted
record. -/
theorem corrupt_checkpoint_treated_as_absent_witness :
    pwBad ≠ pwGood
    ∧ (load_session StoredSession.garbage true pwBad sdStored.url sdStored.file
        false respY = (0, LoadReport.decryptFailed)
      ∧ load_session (StoredSession.encrypted sdStored pwGood) true pwBad
          sdStored.url sdStored.file false respY
        = (0, LoadReport.decryptFailed)) :=
  ⟨by decide,
    corrupt_checkpoint_treated_as_absent sdStored pwBad pwGood sdStored.url
      sdStored.file respY false (by decide)⟩

set_option maxRecDepth 40000 in
/-- C8.  The similarity-threshold scenarios of the claim hold: against
the close actual content the similarity is thirty-six thirty-sevenths,
at least ninety percent, and the retry prompt is not reached; against
the unrelated actual content the similarity is twenty-five
two-hundred-twentieths of one hundred, below ninety percent, and the
retry prompt is reached. -/
theorem similarity_threshold_scenarios :
    (90 ≤ simPct strA.data strB1.data
      ∧ retry_prompt_shown strA.data strB1.data false = false)
    ∧ (simPct strA.data strB2.data < 90
      ∧ retry_prompt_shown strA.data strB2.data false = true) := by
  have hM1 : matchedTotal (pyNorm strA.data) (pyNorm strB1.data) = 18 := by decide
  have hM2 : matchedTotal (pyNorm strA.data) (pyNorm strB2.data) = 5 := by decide
  have hL1 : (pyNorm strA.data).length = 19 := by decide
  have hL2 : (pyNorm strB1.data).length = 18 := by decide
  have hL3 : (pyNorm strB2.data).length = 25 := by decide
  refine ⟨⟨?_, by decide⟩, ?_, by decide⟩
  · simp only [simPct, ratioQ]
    rw [hM1, hL1, hL2]
    norm_num
  · simp only [simPct, ratioQ]
    rw [hM2, hL1, hL3]
    norm_num

/-- The TinyMCE probe loop of find_and_focus_editor never issues a
switch back to the default content. -/
theorem switchDefault_notin_method2 (env : LocEnv) (sels : List String) :
    DriverOp.switchDefault ∉ method2Trace env sels := by
  induction sels with
  | nil => simp [method2Trace]
  | cons s rest ih =>
    by_cases h : env.selectorHit s = true
    · simp [method2Trace, h]
    · simp [method2Trace, h, ih]

/-- C9 counterexample.  A search run by find_and_focus_editor with an
explicit iframe identifier begins with the wait for that iframe, not
with a switch to the default content, and in fact issues no
default-content switch at all, so frame context left by a prior attempt
survives into the probes. -/
theorem find_and_focus_no_default_reset :
    (find_and_focus_editor_trace iframeArg emptyId envNoHit).head?
      = some (DriverOp.waitFrameById iframeArg)
    ∧ DriverOp.switchDefault ∉ find_and_focus_editor_trace iframeArg emptyId envNoHit := by
  decide

/-- C9 amended.  Only find_editor begins by returning to the default
content; find_and_focus_editor never switches to the default content at
any point of any run, so the claim holds for the former and fails for
the latter. -/
theorem default_content_reset_amended :
    (∀ env : MultiEnv,
      (find_editor_trace env).head? = some DriverOp.switchDefault)
    ∧ (∀ (iframeId editorId : String) (env : LocEnv),
      DriverOp.switchDefault ∉ find_and_focus_editor_trace iframeId editorId env) := by
  constructor
  · intro env
    rfl
  · intro iframeId editorId env
    simp only [find_and_focus_editor_trace, List.mem_append]
    push_neg
    refine ⟨⟨?_, ?_⟩, ?_, ?_, ?_⟩
    · split_ifs <;> simp
    · split_ifs <;> simp
    · split_ifs <;> simp [switchDefault_notin_method2]
    · split_ifs <;> simp
    · split_ifs <;> simp

/-- C10 counterexample.  With containment failed, similarity below
ninety percent and verification enabled, answering the retry prompt with
an uppercase letter Y — an answer other than the lowercase letter y —
makes verify_typed_content return false, not true: the source lowercases
the answer before comparing. -/
theorem decline_retry_uppercase_y :
    (containsSeg (pyNorm strE10.data) (pyNorm strA10.data) = false
      ∧ simPct strE10.data strA10.data < 90
      ∧ respY.data ≠ [yChar])
    ∧ verify_typed_content strE10.data strA10.data false respY.data = false := by
  refine ⟨⟨by decide, ?_, by decide⟩, by decide⟩
  have hM : matchedTotal (pyNorm strE10.data) (pyNorm strA10.data) = 0 := by decide
  have hLa : (pyNorm strE10.data).length = 3 := by decide
  have hLb : (pyNorm strA10.data).length = 14 := by decide
  simp only [simPct, ratioQ]
  rw [hM, hLa, hLb]
  norm_num

/-- C10 amended.  When containment fails, the similarity is below ninety
percent and verification is enabled, verify_typed_content returns true
exactly for the answers whose lowercased form differs from the letter y:
declining the retry turns the failed verification into a passing
result. -/
theorem decline_retry_returns_true (e a resp : List Char)
    (h1 : containsSeg (pyNorm e) (pyNorm a) = false)
    (h2 : simPct e a < 90)
    (h3 : resp.map Char.toLower ≠ [yChar]) :
    verify_typed_content e a false resp = true := by
  have hne : pyNorm e ≠ [] := by
    intro hnil
    rw [hnil, containsSeg_nil] at h1
    exact absurd h1 (by decide)
  have hlen : 0 < (pyNorm e).length + (pyNorm a).length := by
    have := List.length_pos.mpr hne
    omega
  have h2q : 100 * ratioQ (pyNorm e) (pyNorm a) < 90 := by
    simpa [simPct] using h2
  have h2b : simLt90 (pyNorm e) (pyNorm a) = true :=
    (simLt90_iff_ratio _ _ hlen).mpr h2q
  unfold verify_typed_content
  rw [if_neg (by simp [h1]), if_pos ⟨h2b, rfl⟩, if_neg h3]

/-- C10 witness: declining the retry with the answer no on a failed,
low-similarity verification yields a passing result. -/
theorem decline_retry_returns_true_witness :
    verify_typed_content strE10.data strA10.data false respNo.data = true := by
  refine decline_retry_returns_true strE10.data strA10.data respNo.data
    (by decide) ?_ (by decide)
  have hM : matchedTotal (pyNorm strE10.data) (pyNorm strA10.data) = 0 := by decide
  have hLa : (pyNorm strE10.data).length = 3 := by decide
  have hLb : (pyNorm strA10.data).length = 14 := by decide
  simp only [simPct, ratioQ]
  rw [hM, hLa, hLb]
  norm_num
